import Mathlib

/-!
Verification development for the crossplane-ai repository.

This file shallowly embeds the resource discovery and classification
pipeline of the repository (package `crossplane`, file with
`Client.GetAllResources`, `Client.GetFilteredResources`,
`Client.convertToResource`, `extractProviderFromGroup`,
`extractStatusFromConditions`) and the AI service layer (package `ai`,
`Service.ProcessQuery`, `Service.AnalyzeResources`,
`Service.performRealAnalysis`, `Service.simulateAIResponse`,
`OpenAIClient.sendRequest`), and proves properties of the embedding.

Modelling conventions:
- Go machine integers here are all small non-negative counts and are
  modelled as `Nat`; Go integer division is `Nat` division.
- The Kubernetes `unstructured` accessors (`NestedMap`, `NestedBool`,
  `NestedSlice`, `NestedString`) return a `found` flag that is false both
  when the field is absent and when it has the wrong dynamic type; both
  situations are modelled as `Option.none`.
- The cluster API is modelled as an environment function from a
  group/version/resource triple to the outcome of the corresponding list
  call.
- The outbound HTTP exchange of `OpenAIClient.sendRequest` is modelled as
  a transport outcome value (network failure, body read failure, or a
  response with a status code, raw body, and the result of unmarshalling
  the body into the choices of an OpenAI response).
-/

set_option maxRecDepth 100000

/-! ## String helpers (Go standard library functions used by the source) -/

/-- Go `strings.ToLower`, character by character (the source only ever
feeds it plain ASCII query text). -/
def goToLower (s : String) : String :=
  ⟨s.data.map Char.toLower⟩

/-- Whether the first list is a leading segment of the second. -/
def startsWithL : List Char → List Char → Bool
  | [], _ => true
  | _ :: _, [] => false
  | p :: ps, c :: cs => p == c && startsWithL ps cs

/-- Whether `pat` occurs contiguously inside `l`. -/
def containsL (pat : List Char) : List Char → Bool
  | [] => pat.isEmpty
  | c :: cs => startsWithL pat (c :: cs) || containsL pat cs

/-- Go `strings.Contains s sub`. -/
def strContains (s sub : String) : Bool :=
  containsL sub.data s.data

/-- Accumulator loop for splitting a character list on a separator. -/
def splitCharAux (sep : Char) : List Char → List Char → List String
  | [], acc => [String.mk acc.reverse]
  | c :: cs, acc =>
    if c == sep then String.mk acc.reverse :: splitCharAux sep cs []
    else splitCharAux sep cs (c :: acc)

/-- Go `strings.Split s (String.singleton sep)`: the source only splits on
the one-character separator ".". Note `goSplitChar "" sep = [""]`, as in
Go. -/
def goSplitChar (s : String) (sep : Char) : List String :=
  splitCharAux sep s.data []

/-- Rendering of a whole-minute duration, standing in for Go
`time.Duration.Round(time.Minute).String()`. The exact text is not load
bearing for any claim; only the "Unknown" default for a missing creation
timestamp is. -/
def formatMinutes (m : Nat) : String :=
  if m = 0 then "0s"
  else if m < 60 then toString m ++ "m0s"
  else toString (m / 60) ++ "h" ++ toString (m % 60) ++ "m0s"

/-! ## Data model -/

/-- A scalar JSON-like value, used for the uninterpreted `spec` payload
and for the values of the generic map resource format. Nested values are
never inspected by the embedded code, so they are elided. -/
inductive JVal where
  | str (s : String)
  | num (n : Int)
  | boolv (b : Bool)
  | nullv
deriving DecidableEq

/-- `schema.GroupVersionResource`. -/
structure GVR where
  group : String
  version : String
  resource : String
deriving DecidableEq

/-- One entry of `status.conditions` as the source inspects it: either not
a JSON object (the `map[string]interface{}` type assertion fails), or an
object whose `type` and `status` string fields may each be absent or
non-string (`NestedString` not found). -/
inductive CondEntry where
  | nonMap
  | entry (typeField statusField : Option String)
deriving DecidableEq

/-- The `status` object of a raw API resource, restricted to the fields
the source reads: `ready` (present-and-boolean) and `conditions`
(present-and-slice). -/
structure StatusObj where
  ready : Option Bool
  conditions : Option (List CondEntry)
deriving DecidableEq

/-- A raw API object as the classifier reads it. `nspace` is the
`metadata.namespace` field (named to avoid the Lean keyword). A missing
`metadata.creationTimestamp` (the zero time) is `none`; a present one is
minutes since some epoch. -/
structure RawObject where
  name : Option String
  nspace : Option String
  labels : Option (List (String × String))
  creationTimestamp : Option Nat
  status : Option StatusObj
  spec : Option (List (String × JVal))
deriving DecidableEq

/-- `crossplane.Resource` (the `Raw` back-pointer field is not modelled:
no embedded operation reads it). The Go field `Type` is rendered `Typ`
because `Type` is reserved in Lean. -/
structure Resource where
  Name : String
  Namespace : String
  Typ : String
  Provider : String
  Status : String
  Age : String
  Labels : Option (List (String × String))
  Spec : Option (List (String × JVal))
deriving DecidableEq

/-- `ai.ResourceInfo`. -/
structure ResourceInfo where
  Name : String
  Typ : String
  Status : String
  Provider : String
  Age : String
deriving DecidableEq

/-- `ai.Issue`. -/
structure Issue where
  Severity : String
  Description : String
  Resource : String
  Resolution : String
deriving DecidableEq

/-- `ai.Recommendation`. -/
structure Recommendation where
  Title : String
  Description : String
  Impact : String
  Priority : String
deriving DecidableEq

/-- `ai.Analysis`. -/
structure Analysis where
  TotalResources : Nat
  HealthyResources : Nat
  IssuesFound : Nat
  HealthScore : Nat
  Resources : List ResourceInfo
  Issues : List Issue
  Recommendations : List Recommendation
deriving DecidableEq

/-! ## Resource classifier (`crossplane` package) -/

/-- `extractProviderFromGroup`. -/
def extractProviderFromGroup (group : String) : String :=
  if group = "pkg.crossplane.io" ∨ group = "apiextensions.crossplane.io" then
    "crossplane"
  else
    match goSplitChar group '.' with
    | _ :: second :: _ => second
    | _ => "unknown"

/-- `extractStatusFromConditions`: scan the conditions in order; the first
entry that is an object carrying both a `type` string and a `status`
string and whose `type` is "Ready" decides; otherwise keep scanning, and
return "Unknown" if no entry decides. -/
def extractStatusFromConditions : List CondEntry → String
  | [] => "Unknown"
  | CondEntry.nonMap :: rest => extractStatusFromConditions rest
  | CondEntry.entry t s :: rest =>
    match t, s with
    | some condType, some condStatus =>
      if condType = "Ready" then
        if condStatus = "True" then "Ready" else "Not Ready"
      else extractStatusFromConditions rest
    | _, _ => extractStatusFromConditions rest

/-- `Client.convertToResource`. `now` is the wall clock (in minutes) used
for the age computation. -/
def convertToResource (now : Nat) (obj : RawObject) (gvr : GVR) : Resource :=
  let name := obj.name.getD ""
  let nspace := obj.nspace.getD ""
  let labels := obj.labels
  let provider := extractProviderFromGroup gvr.group
  let status :=
    match obj.status with
    | none => "Unknown"
    | some st =>
      let fromReady :=
        match st.ready with
        | some true => "Ready"
        | some false => "Not Ready"
        | none => "Unknown"
      match st.conditions with
      | some conds => extractStatusFromConditions conds
      | none => fromReady
  let age :=
    match obj.creationTimestamp with
    | none => "Unknown"
    | some t => formatMinutes (now - t)
  ⟨name, nspace, gvr.resource, provider, status, age, labels, obj.spec⟩

/-! ## Resource discovery aggregator (`crossplane` package) -/

/-- The cluster API: the outcome of the list call for each kind. -/
def Env : Type := GVR → Except String (List RawObject)

/-- The hardcoded kind catalog of `Client.GetAllResources`. -/
def resourceTypes : List GVR :=
  [⟨"apiextensions.crossplane.io", "v1", "compositions"⟩,
   ⟨"apiextensions.crossplane.io", "v1", "compositeresourcedefinitions"⟩,
   ⟨"pkg.crossplane.io", "v1", "providers"⟩,
   ⟨"pkg.crossplane.io", "v1", "configurations"⟩,
   ⟨"rds.aws.crossplane.io", "v1alpha1", "dbinstances"⟩,
   ⟨"ec2.aws.crossplane.io", "v1alpha1", "instances"⟩,
   ⟨"s3.aws.crossplane.io", "v1alpha1", "buckets"⟩,
   ⟨"eks.aws.crossplane.io", "v1alpha1", "clusters"⟩,
   ⟨"sql.gcp.crossplane.io", "v1alpha1", "databaseinstances"⟩,
   ⟨"compute.gcp.crossplane.io", "v1alpha1", "instances"⟩,
   ⟨"storage.gcp.crossplane.io", "v1alpha1", "buckets"⟩,
   ⟨"sql.azure.crossplane.io", "v1alpha1", "servers"⟩,
   ⟨"compute.azure.crossplane.io", "v1alpha1", "virtualmachines"⟩,
   ⟨"storage.azure.crossplane.io", "v1alpha1", "accounts"⟩]

/-- `Client.getResourcesOfType`: a failed list call propagates its error,
a successful one classifies every item in API response order. -/
def getResourcesOfType (now : Nat) (env : Env) (gvr : GVR) :
    Except String (List Resource) :=
  match env gvr with
  | Except.error e => Except.error e
  | Except.ok items => Except.ok (items.map (fun o => convertToResource now o gvr))

/-- The accumulation loop of `Client.GetAllResources`: per-kind errors are
skipped (`continue`), successes are appended in catalog order. -/
def getAllResourcesList (now : Nat) (env : Env) : List GVR → List Resource
  | [] => []
  | gvr :: rest =>
    (match getResourcesOfType now env gvr with
     | Except.ok rs => rs
     | Except.error _ => []) ++ getAllResourcesList now env rest

/-- `Client.GetAllResources`: runs the loop over the catalog and returns
`nil` for the error (the Go function structurally always returns a nil
error). -/
def getAllResources (now : Nat) (env : Env) : Except String (List Resource) :=
  Except.ok (getAllResourcesList now env resourceTypes)

/-- The filtering loop of `Client.GetFilteredResources`, transliterated
with its three `continue` guards. -/
def filterResources (name provider nsFilter : String) :
    List Resource → List Resource
  | [] => []
  | r :: rest =>
    if name != "" && r.Name != name then
      filterResources name provider nsFilter rest
    else if provider != "" && r.Provider != provider then
      filterResources name provider nsFilter rest
    else if nsFilter != "" && r.Namespace != nsFilter then
      filterResources name provider nsFilter rest
    else
      r :: filterResources name provider nsFilter rest

/-- `Client.GetFilteredResources`. -/
def getFilteredResources (now : Nat) (env : Env)
    (name provider nsFilter : String) : Except String (List Resource) :=
  match getAllResources now env with
  | Except.error e => Except.error e
  | Except.ok allResources =>
    Except.ok (filterResources name provider nsFilter allResources)


/-! ## AI service layer (`ai` package)

The canned template strings below are transcribed from the source; the
ASCII apostrophes and single quotes of the source text are rendered with
the typographic mark U+2019 throughout. The claims only depend on which
template is selected, not on the punctuation inside it. -/

/-- `Service.generateResourceSummary` (its `resourcesJSON` argument is
unused by the source). -/
def generateResourceSummary (_resourcesJSON : String) : String :=
  "📊 Resource Summary:\n\nYour Crossplane cluster contains:\n• Multiple cloud providers (AWS, GCP, Azure)\n• Various resource types (databases, compute, storage)\n• Most resources are in healthy state\n\n💡 Quick tips:\n• Use ’crossplane-ai analyze’ for detailed health check\n• Run ’crossplane-ai suggest optimize’ for optimization recommendations\n• Try ’crossplane-ai ask \"show me failing resources\"’ for troubleshooting"

/-- The template of routing rule 2 (request mentions aws). -/
def awsResponse : String :=
  "🔍 Here are your AWS resources managed by Crossplane:\n\nBased on your cluster, I found several AWS resources. Most appear to be healthy, but I’d recommend checking the RDS instances for performance optimization opportunities."

/-- The template of routing rule 3 (request mentions database or db). -/
def databaseResponse : String :=
  "🗄️ Database Analysis:\n\nI found database instances in your cluster. Here are some insights:\n• All databases appear to be in ’Ready’ state\n• Consider enabling automated backups for production databases\n• Review connection pooling settings for better performance"

/-- The template of routing rule 4 (not ready or failed). -/
def troubleshootResponse : String :=
  "🔧 Troubleshooting Not Ready Resources:\n\nLet me help you diagnose issues:\n1. Check resource events for error messages\n2. Verify provider credentials are valid\n3. Ensure required dependencies are available\n4. Check network connectivity to cloud provider APIs"

/-- The template of routing rule 5 (cost or expensive). -/
def costResponse : String :=
  "💰 Cost Optimization Insights:\n\nHere are some cost-saving recommendations:\n• Consider using spot instances for non-critical workloads\n• Review instance sizes - some might be over-provisioned\n• Enable auto-scaling to optimize resource usage\n• Use reserved instances for predictable workloads"

/-- The default (always-matching) template; it interpolates the original
request text, per the `fmt.Sprintf` in the source. -/
def defaultResponse (query : String) : String :=
  "🤖 I understand you’re asking about: " ++ query ++ "\n\nBased on your Crossplane resources, here’s what I can tell you:\n• Your cluster has multiple providers configured\n• Most resources appear to be healthy\n• Consider running ’crossplane-ai analyze’ for detailed insights\n\nFeel free to ask more specific questions about your resources!"

/-- `Service.simulateAIResponse`: the keyword router over the lower-cased
query, with its five substring rules in source order and the default
fallback. -/
def simulateAIResponse (query resourcesJSON : String) : String :=
  let queryLower := goToLower query
  if strContains queryLower "what" && strContains queryLower "resources" then
    generateResourceSummary resourcesJSON
  else if strContains queryLower "aws" then
    awsResponse
  else if strContains queryLower "database" || strContains queryLower "db" then
    databaseResponse
  else if strContains queryLower "not ready" || strContains queryLower "failed" then
    troubleshootResponse
  else if strContains queryLower "cost" || strContains queryLower "expensive" then
    costResponse
  else
    defaultResponse query

/-- The outcome of the single HTTP exchange performed by
`OpenAIClient.sendRequest`: the `http.Client.Do` call may fail, reading
the body may fail, or a response arrives with a status code, a raw body,
and the outcome of `json.Unmarshal` of that body into an OpenAI response
(reduced to the list of choice message contents, the only parts read). -/
inductive HTTPOutcome where
  | netError (msg : String)
  | readError (msg : String)
  | response (statusCode : Nat) (body : String) (parsed : Except String (List String))

/-- `OpenAIClient.sendRequest`: propagate transport errors, reject a
non-200 status, reject an unparsable body, reject an empty choices list,
and otherwise return the first choice message content. Marshalling of the
outbound request (a struct of strings and numbers) is modelled as always
succeeding. -/
def sendRequest (t : HTTPOutcome) : Except String String :=
  match t with
  | HTTPOutcome.netError m => Except.error ("failed to send request: " ++ m)
  | HTTPOutcome.readError m => Except.error ("failed to read response: " ++ m)
  | HTTPOutcome.response statusCode body parsed =>
    if statusCode ≠ 200 then
      Except.error ("API request failed with status " ++ toString statusCode ++ ": " ++ body)
    else
      match parsed with
      | Except.error je => Except.error ("failed to unmarshal response: " ++ je)
      | Except.ok [] => Except.error "no response choices returned"
      | Except.ok (content :: _) => Except.ok content

/-- The OpenAI client, reduced to the data its embedded methods consume:
the transport outcome of its one HTTP exchange, and the `json.Unmarshal`
of a completion text into an `Analysis` (an oracle for the standard
library decoder, `none` meaning the text is not valid JSON for it). -/
structure ClientModel where
  transport : HTTPOutcome
  decodeAnalysis : String → Option Analysis

/-- `ai.Service`: the `useRealAI` flag and the optional OpenAI client. -/
structure ServiceModel where
  useRealAI : Bool
  openaiClient : Option ClientModel

/-- The prompt built by `OpenAIClient.CompleteWithContext`. -/
def contextPrompt (resourceContext query : String) : String :=
  "Context: You are analyzing Crossplane resources in a Kubernetes cluster.\n\nResource Information:\n" ++ resourceContext ++ "\n\nUser Query: " ++ query ++ "\n\nPlease provide a helpful response based on the resource context. If the query is about specific resources, reference the actual resource names and statuses from the context."

/-- `OpenAIClient.Complete`: wraps the prompt into a request and sends it;
the request content does not influence the modelled transport outcome. -/
def clientComplete (c : ClientModel) (_prompt : String) : Except String String :=
  sendRequest c.transport

/-- `OpenAIClient.CompleteWithContext`. -/
def completeWithContext (c : ClientModel) (query resourceContext : String) :
    Except String String :=
  clientComplete c (contextPrompt resourceContext query)

/-- `Service.ProcessQuery`. `marshalled` is the outcome of
`json.Marshal(resources)`; on its failure the function errors out, else
the real AI path is used when configured, and otherwise the keyword
template responder answers. -/
def processQuery (s : ServiceModel) (query : String)
    (marshalled : Except String String) : Except String String :=
  match marshalled with
  | Except.error e => Except.error ("failed to marshal resources: " ++ e)
  | Except.ok resourcesJSON =>
    if s.useRealAI then
      match s.openaiClient with
      | some c => completeWithContext c query resourcesJSON
      | none => Except.ok (simulateAIResponse query resourcesJSON)
    else
      Except.ok (simulateAIResponse query resourcesJSON)

/-- The dynamic type of the `resources interface{}` argument of
`Service.AnalyzeResources`, as discriminated by its type switch:
`[]*ai.ResourceInfo`, `[]*crossplane.Resource`,
`[]map[string]interface{}`, or anything else. -/
inductive ResourcesInput where
  | resourceInfos (l : List ResourceInfo)
  | crossplaneResources (l : List Resource)
  | maps (l : List (List (String × JVal)))
  | other

/-- String-typed field access on a generic map (`res["k"].(string)`). -/
def getStrField (m : List (String × JVal)) (k : String) : Option String :=
  match m.lookup k with
  | some (JVal.str s) => some s
  | _ => none

/-- `convertMapToResourceInfo`: every missing or non-string field keeps
the zero value "". -/
def convertMapToResourceInfo (res : List (String × JVal)) : ResourceInfo :=
  ⟨(getStrField res "name").getD "",
   (getStrField res "type").getD "",
   (getStrField res "status").getD "",
   (getStrField res "provider").getD "",
   (getStrField res "age").getD ""⟩

/-- The `[]*crossplane.Resource` arm of the type switch: copy the five
display fields into a `ResourceInfo`. -/
def resourceInfoOfResource (r : Resource) : ResourceInfo :=
  ⟨r.Name, r.Typ, r.Status, r.Provider, r.Age⟩

/-- `Service.generateRealRecommendations`. The Go provider histogram
`providerCounts` is only read through `len`, i.e. the number of distinct
providers. -/
def generateRealRecommendations (resources : List ResourceInfo)
    (healthScore : Nat) : List Recommendation :=
  (if healthScore < 80 then
    [⟨"Investigate Resource Issues",
      "Some resources are not in ready state. Check logs and events for troubleshooting.",
      "Improve system reliability and performance", "High"⟩]
   else []) ++
  (if ((resources.map (fun r => r.Provider)).eraseDups).length > 2 then
    [⟨"Multi-Cloud Management",
      "Consider implementing consistent policies across multiple cloud providers.",
      "Better governance and cost optimization", "Medium"⟩]
   else []) ++
  (if resources.length > 0 then
    [⟨"Enable Monitoring and Alerting",
      "Set up monitoring for your Crossplane resources to track health and performance.",
      "Proactive issue detection and resolution", "Medium"⟩]
   else [])

/-- `Service.performRealAnalysis`: count the Ready resources, file one
Warning issue per resource that is neither Ready nor Unknown, and compute
the health score by Go integer division, keeping the initial value 100
when the collection is empty. -/
def performRealAnalysis (resources : List ResourceInfo)
    (_healthCheck : Bool) : Analysis :=
  let totalResources := resources.length
  let healthyResources := (resources.filter (fun r => r.Status == "Ready")).length
  let issues := resources.filterMap (fun r =>
    if r.Status == "Ready" then none
    else if r.Status != "Ready" && r.Status != "Unknown" then
      some ⟨"Warning",
            "Resource " ++ r.Name ++ " is in " ++ r.Status ++ " state",
            r.Name,
            "Check resource events and provider status"⟩
    else none)
  let issuesFound := issues.length
  let healthScore :=
    if totalResources > 0 then healthyResources * 100 / totalResources else 100
  let recommendations := generateRealRecommendations resources healthScore
  ⟨totalResources, healthyResources, issuesFound, healthScore,
   resources, issues, recommendations⟩

/-- The all-zero `Analysis` returned for an unrecognized input type. -/
def zeroAnalysis : Analysis := ⟨0, 0, 0, 0, [], [], []⟩

/-- The `Analysis` returned when the recognized resource list is empty:
all counts zero and the single install-providers recommendation. -/
def emptyResourcesAnalysis : Analysis :=
  ⟨0, 0, 0, 0, [], [],
   [⟨"Install Crossplane Providers",
     "No Crossplane resources found. Install providers and create compositions to get started.",
     "Enable infrastructure management through Crossplane", "High"⟩]⟩

/-- `OpenAIClient.AnalyzeResources`: a completion failure propagates; an
unparsable completion degrades to the fixed basic analysis embedding the
raw completion text; a parsed one is returned as is. The prompt content
does not influence the modelled transport outcome. -/
def clientAnalyzeResources (c : ClientModel) (_healthCheck : Bool) :
    Except String Analysis :=
  match sendRequest c.transport with
  | Except.error e => Except.error e
  | Except.ok response =>
    match c.decodeAnalysis response with
    | none =>
      Except.ok ⟨1, 1, 0, 85, [], [],
        [⟨"AI Analysis Results", response, "", "Medium"⟩]⟩
    | some analysis => Except.ok analysis

/-- The shared tail of `Service.AnalyzeResources` after the type switch
has produced the `resourceList`: empty list short-circuits, then the AI
path (with fallback to the real analysis on any AI failure) or the real
analysis directly. `json.Marshal` of a list of string structs is modelled
as always succeeding; its error branch in the source falls back to the
same real analysis. -/
def analyzeKnownResources (s : ServiceModel) (resourceList : List ResourceInfo)
    (healthCheck : Bool) : Except String Analysis :=
  if resourceList.isEmpty then
    Except.ok emptyResourcesAnalysis
  else if s.useRealAI then
    match s.openaiClient with
    | some c =>
      match clientAnalyzeResources c healthCheck with
      | Except.error _ => Except.ok (performRealAnalysis resourceList healthCheck)
      | Except.ok analysis => Except.ok analysis
    | none => Except.ok (performRealAnalysis resourceList healthCheck)
  else
    Except.ok (performRealAnalysis resourceList healthCheck)

/-- `Service.AnalyzeResources`: the type switch, the conversions of the
recognized shapes, and the shared analysis tail. -/
def analyzeResources (s : ServiceModel) (input : ResourcesInput)
    (healthCheck : Bool) : Except String Analysis :=
  match input with
  | ResourcesInput.other => Except.ok zeroAnalysis
  | ResourcesInput.resourceInfos r => analyzeKnownResources s r healthCheck
  | ResourcesInput.crossplaneResources r =>
    analyzeKnownResources s (r.map resourceInfoOfResource) healthCheck
  | ResourcesInput.maps r =>
    analyzeKnownResources s (r.map convertMapToResourceInfo) healthCheck

/-- Modelled from the spec words, for comparison with the code: the
health score as `round(100 * healthyCount / totalCount)`, the nearest
integer with halves rounded up. -/
def healthScoreRounded (healthy total : Nat) : Nat :=
  (2 * (100 * healthy) + total) / (2 * total)


/-! ## Helper lemmas -/

/-- The discovery loop over any catalog equals the concatenation, in
catalog order, of the classified items of exactly the kinds whose list
call succeeded. -/
theorem getAllResourcesList_eq_flatten (now : Nat) (env : Env) :
    ∀ cat : List GVR, getAllResourcesList now env cat
      = (cat.map (fun gvr =>
          match env gvr with
          | Except.ok items => items.map (fun o => convertToResource now o gvr)
          | Except.error _ => [])).flatten := by
  intro cat
  induction cat with
  | nil => rfl
  | cons gvr rest ih =>
    simp only [getAllResourcesList, List.map_cons, List.flatten_cons, ih]
    cases h : env gvr <;> simp [getResourcesOfType, h]

/-- The transliterated filtering loop is the `List.filter` of the
conjunction of the three optional equality tests. -/
theorem filterResources_eq_filter (n p ns : String) :
    ∀ l : List Resource, filterResources n p ns l
      = l.filter (fun r =>
          (n == "" || r.Name == n) && (p == "" || r.Provider == p)
            && (ns == "" || r.Namespace == ns)) := by
  intro l
  induction l with
  | nil => rfl
  | cons r rest ih =>
    simp only [filterResources, List.filter_cons, ih]
    cases hn : (n == "") <;> cases hp : (p == "") <;> cases hns : (ns == "") <;>
      cases hn2 : (r.Name == n) <;> cases hp2 : (r.Provider == p) <;>
      cases hns2 : (r.Namespace == ns) <;>
      simp [bne, hn, hp, hns, hn2, hp2, hns2]

/-- With the real-AI flag off, the shared analysis tail always returns a
successful analysis. -/
theorem analyzeKnownResources_ok (s : ServiceModel) (h : s.useRealAI = false)
    (l : List ResourceInfo) (hc : Bool) :
    ∃ a, analyzeKnownResources s l hc = Except.ok a := by
  cases l with
  | nil => exact ⟨_, rfl⟩
  | cons a rest =>
    exact ⟨performRealAnalysis (a :: rest) hc,
      by simp [analyzeKnownResources, h]⟩

/-! ## Claim C6 -/

/-- Claim C6: when some per-kind list calls fail and others succeed,
`GetAllResources` never returns an error: it skips each failing kind and
returns, in catalog-iteration order, the concatenation of the classified
records of exactly the kinds that succeeded, keeping within-kind records
in API-response order. (Proved for every environment.) -/
theorem getAllResources_partial_results (now : Nat) (env : Env) :
    getAllResources now env
      = Except.ok ((resourceTypes.map (fun gvr =>
          match env gvr with
          | Except.ok items => items.map (fun o => convertToResource now o gvr)
          | Except.error _ => [])).flatten) := by
  unfold getAllResources
  rw [getAllResourcesList_eq_flatten]

/-! ## Claim C5 -/

/-- Claim C5 counterexample: in an environment where every per-kind list
call fails (the API server is unreachable), `GetAllResources` does not
surface an error — it returns a successful empty result. -/
theorem getAllResources_total_failure_cex :
    getAllResources 0 (fun _ => Except.error "connection refused")
      = Except.ok ([] : List Resource) := rfl

/-- Claim C5 (amended): `GetAllResources` never returns an error; in
particular, when every per-kind list call fails it succeeds with an empty
resource list, so total discovery failure is not surfaced to the
caller. -/
theorem getAllResources_never_errors (now : Nat) (env : Env) :
    (∃ l, getAllResources now env = Except.ok l)
    ∧ ((∀ gvr, ∃ e, env gvr = Except.error e) →
        getAllResources now env = Except.ok []) := by
  constructor
  · exact ⟨_, rfl⟩
  · intro h
    unfold getAllResources
    have hnil : ∀ cat : List GVR, getAllResourcesList now env cat = [] := by
      intro cat
      induction cat with
      | nil => rfl
      | cons gvr rest ih =>
        obtain ⟨e, he⟩ := h gvr
        simp [getAllResourcesList, getResourcesOfType, he, ih]
    rw [hnil]

theorem getAllResources_never_errors_witness :
    getAllResources 0 (fun _ => Except.error "the API server is unreachable")
      = Except.ok ([] : List Resource) :=
  (getAllResources_never_errors 0 _).2
    (fun _ => ⟨"the API server is unreachable", rfl⟩)

/-! ## Claim C7 -/

/-- Claim C7: `GetFilteredResources` returns exactly the subsequence of
`GetAllResources` output whose records satisfy every non-empty equality
filter (filters AND-ed, empty filter unconstrained), in unchanged order;
with all filters empty it returns exactly the `GetAllResources` sequence;
with provider "aws" every returned record has provider "aws". -/
theorem getFilteredResources_spec (now : Nat) (env : Env) (n p ns : String) :
    getFilteredResources now env n p ns
      = Except.ok ((getAllResourcesList now env resourceTypes).filter
          (fun r => (n == "" || r.Name == n) && (p == "" || r.Provider == p)
            && (ns == "" || r.Namespace == ns)))
    ∧ getFilteredResources now env "" "" ""
        = Except.ok (getAllResourcesList now env resourceTypes)
    ∧ (∀ l, getFilteredResources now env n "aws" ns = Except.ok l →
        ∀ r ∈ l, r.Provider = "aws") := by
  refine ⟨?_, ?_, ?_⟩
  · simp [getFilteredResources, getAllResources, filterResources_eq_filter]
  · simp [getFilteredResources, getAllResources, filterResources_eq_filter]
  · intro l hl r hr
    simp only [getFilteredResources, getAllResources,
      filterResources_eq_filter] at hl
    cases hl
    have hmem := List.of_mem_filter hr
    simp at hmem
    exact hmem.1.2

/-- A one-object sample cluster used to instantiate claim C7's theorem. -/
def sampleAwsObject : RawObject :=
  ⟨some "db1", some "default", none, none, some ⟨some true, none⟩, none⟩

/-- A sample environment: only the AWS RDS kind lists successfully. -/
def sampleEnv : Env := fun gvr =>
  if gvr.group = "rds.aws.crossplane.io" then Except.ok [sampleAwsObject]
  else Except.error "the server could not find the requested resource"

theorem getFilteredResources_spec_witness :
    getFilteredResources 0 sampleEnv "" "" ""
      = Except.ok (getAllResourcesList 0 sampleEnv resourceTypes)
    ∧ (convertToResource 0 sampleAwsObject
        ⟨"rds.aws.crossplane.io", "v1alpha1", "dbinstances"⟩).Provider = "aws" :=
  ⟨(getFilteredResources_spec 0 sampleEnv "" "" "").2.1,
   (getFilteredResources_spec 0 sampleEnv "" "aws" "").2.2
     [convertToResource 0 sampleAwsObject
        ⟨"rds.aws.crossplane.io", "v1alpha1", "dbinstances"⟩] rfl
     (convertToResource 0 sampleAwsObject
        ⟨"rds.aws.crossplane.io", "v1alpha1", "dbinstances"⟩) (List.Mem.head _)⟩

/-! ## Claim C2 -/

/-- Claim C2 counterexample: a raw object whose `status.ready` is the
boolean `true` but whose `status.conditions` carries a Ready condition
with status "False" is classified "Not Ready" — the boolean result is not
final, contradicting the claimed priority order. -/
theorem convertToResource_ready_not_final_cex :
    (convertToResource 0
      ⟨none, none, none, none,
       some ⟨some true, some [CondEntry.entry (some "Ready") (some "False")]⟩,
       none⟩
      ⟨"rds.aws.crossplane.io", "v1alpha1", "dbinstances"⟩).Status = "Not Ready"
    ∧ ("Not Ready" : String) ≠ "Ready" :=
  ⟨rfl, by decide⟩

/-- Claim C2 (amended): the classifier consults `status.ready` first
(true maps to Ready, false to Not Ready), but whenever `status.conditions`
is present its scan overrides that result entirely: the first condition
with type "Ready" maps its status ("True" to Ready, anything else to Not
Ready), and with no such condition the result is Unknown; only when
`status.conditions` is absent does the `status.ready` mapping stand, and
an absent `status` yields Unknown. -/
theorem convertToResource_status_precedence (now : Nat) (obj : RawObject)
    (gvr : GVR) :
    (obj.status = none → (convertToResource now obj gvr).Status = "Unknown")
    ∧ (∀ st : StatusObj, obj.status = some st → st.conditions = none →
        (convertToResource now obj gvr).Status
          = (match st.ready with
             | some true => "Ready"
             | some false => "Not Ready"
             | none => "Unknown"))
    ∧ (∀ st conds, obj.status = some st → st.conditions = some conds →
        (convertToResource now obj gvr).Status
          = extractStatusFromConditions conds)
    ∧ extractStatusFromConditions [] = "Unknown"
    ∧ (∀ condStatus rest,
        extractStatusFromConditions
            (CondEntry.entry (some "Ready") (some condStatus) :: rest)
          = if condStatus = "True" then "Ready" else "Not Ready") := by
  refine ⟨?_, ?_, ?_, rfl, ?_⟩
  · intro h
    simp [convertToResource, h]
  · intro st h1 h2
    simp [convertToResource, h1, h2]
  · intro st conds h1 h2
    simp [convertToResource, h1, h2]
  · intro condStatus rest
    simp [extractStatusFromConditions]

theorem convertToResource_status_precedence_witness :
    (convertToResource 0 ⟨none, none, none, none, some ⟨some true, none⟩, none⟩
       ⟨"rds.aws.crossplane.io", "v1alpha1", "dbinstances"⟩).Status = "Ready"
    ∧ (convertToResource 0
        ⟨none, none, none, none,
         some ⟨none, some [CondEntry.entry (some "Ready") (some "True")]⟩, none⟩
        ⟨"pkg.crossplane.io", "v1", "providers"⟩).Status = "Ready" := by
  constructor
  · exact (convertToResource_status_precedence 0
      ⟨none, none, none, none, some ⟨some true, none⟩, none⟩
      ⟨"rds.aws.crossplane.io", "v1alpha1", "dbinstances"⟩).2.1
      ⟨some true, none⟩ rfl rfl
  · have h := (convertToResource_status_precedence 0
      ⟨none, none, none, none,
       some ⟨none, some [CondEntry.entry (some "Ready") (some "True")]⟩, none⟩
      ⟨"pkg.crossplane.io", "v1", "providers"⟩).2.2.1
      ⟨none, some [CondEntry.entry (some "Ready") (some "True")]⟩
      [CondEntry.entry (some "Ready") (some "True")] rfl rfl
    rw [h]
    decide

/-! ## Claim C3 -/

/-- Claim C3 counterexample: for the reserved package group the inferred
provider is the sentinel "crossplane", not "platform" as claimed. -/
theorem extractProviderFromGroup_platform_cex :
    extractProviderFromGroup "pkg.crossplane.io" = "crossplane"
    ∧ ("crossplane" : String) ≠ "platform" :=
  ⟨rfl, by decide⟩

/-- Claim C3 (amended): provider inference is a pure function of the API
group: the two reserved platform groups map to the fixed sentinel
"crossplane"; every other group splitting on "." into at least two
segments maps to its second segment; and a group with no dot (a single
split segment) maps to "unknown". -/
theorem extractProviderFromGroup_spec (g : String) :
    ((g = "apiextensions.crossplane.io" ∨ g = "pkg.crossplane.io") →
       extractProviderFromGroup g = "crossplane")
    ∧ (g ≠ "apiextensions.crossplane.io" → g ≠ "pkg.crossplane.io" →
        (∀ a b rest, goSplitChar g '.' = a :: b :: rest →
           extractProviderFromGroup g = b)
        ∧ (∀ a, goSplitChar g '.' = [a] →
           extractProviderFromGroup g = "unknown")) := by
  constructor
  · rintro (h | h) <;> subst h <;> simp [extractProviderFromGroup]
  · intro h1 h2
    have hcond : ¬(g = "pkg.crossplane.io" ∨ g = "apiextensions.crossplane.io") := by
      rintro (h | h)
      · exact h2 h
      · exact h1 h
    constructor
    · intro a b rest hs
      simp [extractProviderFromGroup, hcond, hs]
    · intro a hs
      simp [extractProviderFromGroup, hcond, hs]

theorem extractProviderFromGroup_spec_witness :
    extractProviderFromGroup "rds.aws.crossplane.io" = "aws"
    ∧ extractProviderFromGroup "localhost" = "unknown" := by
  constructor
  · exact ((extractProviderFromGroup_spec "rds.aws.crossplane.io").2
      (by decide) (by decide)).1 "rds" "aws" ["crossplane", "io"] (by decide)
  · exact ((extractProviderFromGroup_spec "localhost").2
      (by decide) (by decide)).2 "localhost" (by decide)

/-! ## Claim C8 -/

/-- Claim C8: the classifier is total — it is a plain function that can
never raise — and every missing field degrades to a default: absent
`status` yields status "Unknown", absent name and namespace yield "",
absent creation timestamp yields age "Unknown", and the labels and spec
fields pass through unchanged (absent stays absent). -/
theorem convertToResource_total_defaults (now : Nat) (obj : RawObject)
    (gvr : GVR) :
    (obj.status = none → (convertToResource now obj gvr).Status = "Unknown")
    ∧ (obj.name = none → (convertToResource now obj gvr).Name = "")
    ∧ (obj.nspace = none → (convertToResource now obj gvr).Namespace = "")
    ∧ (obj.creationTimestamp = none → (convertToResource now obj gvr).Age = "Unknown")
    ∧ (convertToResource now obj gvr).Labels = obj.labels
    ∧ (convertToResource now obj gvr).Spec = obj.spec := by
  refine ⟨?_, ?_, ?_, ?_, rfl, rfl⟩ <;> intro h <;> simp [convertToResource, h]

theorem convertToResource_total_defaults_witness :
    (convertToResource 0 ⟨none, none, none, none, none, none⟩
       ⟨"s3.aws.crossplane.io", "v1alpha1", "buckets"⟩).Status = "Unknown"
    ∧ (convertToResource 0 ⟨none, none, none, none, none, none⟩
       ⟨"s3.aws.crossplane.io", "v1alpha1", "buckets"⟩).Name = ""
    ∧ (convertToResource 0 ⟨none, none, none, none, none, none⟩
       ⟨"s3.aws.crossplane.io", "v1alpha1", "buckets"⟩).Namespace = ""
    ∧ (convertToResource 0 ⟨none, none, none, none, none, none⟩
       ⟨"s3.aws.crossplane.io", "v1alpha1", "buckets"⟩).Age = "Unknown"
    ∧ (convertToResource 0 ⟨none, none, none, none, none, none⟩
       ⟨"s3.aws.crossplane.io", "v1alpha1", "buckets"⟩).Labels = none
    ∧ (convertToResource 0 ⟨none, none, none, none, none, none⟩
       ⟨"s3.aws.crossplane.io", "v1alpha1", "buckets"⟩).Spec = none := by
  have h := convertToResource_total_defaults 0 ⟨none, none, none, none, none, none⟩
    ⟨"s3.aws.crossplane.io", "v1alpha1", "buckets"⟩
  exact ⟨h.1 rfl, h.2.1 rfl, h.2.2.1 rfl, h.2.2.2.1 rfl, h.2.2.2.2.1, h.2.2.2.2.2⟩

/-! ## Claim C9 -/

/-- Claim C9: the keyword router evaluates its rules over the lower-cased
request text in fixed priority order with the first match winning: a text
containing both "aws" and "database" that does not match rule 1 is
answered by the AWS rule (rule 2), not the database rule (rule 3) — the
two answers differ — and when no earlier rule matches the default
fallback template always answers. -/
theorem simulateAIResponse_priority :
    (∀ q j : String,
       (strContains (goToLower q) "what"
          && strContains (goToLower q) "resources") = false →
       strContains (goToLower q) "aws" = true →
       strContains (goToLower q) "database" = true →
       simulateAIResponse q j = awsResponse)
    ∧ awsResponse ≠ databaseResponse
    ∧ (∀ q j : String,
       (strContains (goToLower q) "what"
          && strContains (goToLower q) "resources") = false →
       strContains (goToLower q) "aws" = false →
       (strContains (goToLower q) "database"
          || strContains (goToLower q) "db") = false →
       (strContains (goToLower q) "not ready"
          || strContains (goToLower q) "failed") = false →
       (strContains (goToLower q) "cost"
          || strContains (goToLower q) "expensive") = false →
       simulateAIResponse q j = defaultResponse q) := by
  refine ⟨?_, by decide, ?_⟩
  · intro q j h1 h2 h3
    simp [simulateAIResponse, h1, h2]
  · intro q j h1 h2 h3 h4 h5
    simp [simulateAIResponse, h1, h2, h3, h4, h5]

theorem simulateAIResponse_priority_witness :
    simulateAIResponse "show me aws database issues" "[]" = awsResponse
    ∧ simulateAIResponse "hello" "[]" = defaultResponse "hello" :=
  ⟨simulateAIResponse_priority.1 "show me aws database issues" "[]"
     (by decide) (by decide) (by decide),
   simulateAIResponse_priority.2.2 "hello" "[]"
     (by decide) (by decide) (by decide) (by decide) (by decide)⟩

/-! ## Claim C10 -/

/-- Claim C10: `AnalyzeResources` never errors on its non-AI path: an
unrecognized input type yields the all-zero analysis with no error, and a
recognized but empty resource list yields the zero-count analysis whose
only recommendation is the install-providers one, again with no error;
with the real-AI flag off every input yields a successful analysis. -/
theorem analyzeResources_non_ai_total (s : ServiceModel) (hc : Bool) :
    analyzeResources s ResourcesInput.other hc = Except.ok zeroAnalysis
    ∧ analyzeResources s (ResourcesInput.resourceInfos []) hc
        = Except.ok emptyResourcesAnalysis
    ∧ analyzeResources s (ResourcesInput.crossplaneResources []) hc
        = Except.ok emptyResourcesAnalysis
    ∧ analyzeResources s (ResourcesInput.maps []) hc
        = Except.ok emptyResourcesAnalysis
    ∧ (s.useRealAI = false →
        ∀ input, ∃ a, analyzeResources s input hc = Except.ok a) := by
  refine ⟨rfl, rfl, rfl, rfl, ?_⟩
  intro h input
  cases input with
  | other => exact ⟨_, rfl⟩
  | resourceInfos r => exact analyzeKnownResources_ok s h r hc
  | crossplaneResources r =>
    exact analyzeKnownResources_ok s h (r.map resourceInfoOfResource) hc
  | maps r =>
    exact analyzeKnownResources_ok s h (r.map convertMapToResourceInfo) hc

theorem analyzeResources_non_ai_total_witness :
    analyzeResources ⟨false, none⟩ ResourcesInput.other true
      = Except.ok zeroAnalysis
    ∧ analyzeResources ⟨false, none⟩ (ResourcesInput.resourceInfos []) true
      = Except.ok emptyResourcesAnalysis
    ∧ (∃ a, analyzeResources ⟨false, none⟩
        (ResourcesInput.resourceInfos [⟨"db1", "dbinstances", "Ready", "aws", "5m0s"⟩])
        true = Except.ok a) :=
  ⟨(analyzeResources_non_ai_total ⟨false, none⟩ true).1,
   (analyzeResources_non_ai_total ⟨false, none⟩ true).2.1,
   (analyzeResources_non_ai_total ⟨false, none⟩ true).2.2.2.2 rfl
     (ResourcesInput.resourceInfos [⟨"db1", "dbinstances", "Ready", "aws", "5m0s"⟩])⟩

/-! ## Claim C4 -/

/-- The three-record collection (two Ready, one Creating) on which floor
and round disagree. -/
def cexResources : List ResourceInfo :=
  [⟨"db1", "dbinstances", "Ready", "aws", "5m0s"⟩,
   ⟨"db2", "dbinstances", "Ready", "aws", "5m0s"⟩,
   ⟨"vm1", "instances", "Creating", "gcp", "5m0s"⟩]

/-- Claim C4 counterexample: for three records with two Ready, the code
computes health score 66 (Go integer division truncates), while the
claimed `round(100 * healthy / total)` is 67. -/
theorem analyzeResources_healthScore_round_cex :
    analyzeResources ⟨false, none⟩ (ResourcesInput.resourceInfos cexResources) true
      = Except.ok (performRealAnalysis cexResources true)
    ∧ (performRealAnalysis cexResources true).HealthScore = 66
    ∧ healthScoreRounded
        ((cexResources.filter (fun r => r.Status == "Ready")).length)
        cexResources.length = 67
    ∧ (performRealAnalysis cexResources true).HealthScore
        ≠ healthScoreRounded
            ((cexResources.filter (fun r => r.Status == "Ready")).length)
            cexResources.length := by
  exact ⟨rfl, by decide, by decide, by decide⟩

/-- Claim C4 (amended): without the external AI path, the resulting
analysis has health score `floor(100 * healthyCount / totalCount)` — Go
integer division — for every non-empty collection, and an empty
collection yields the zero-count analysis (health score 0) without any
division by zero; the other recognized input shapes reduce to the same
computation on their converted records. -/
theorem analyzeResources_healthScore_floor (s : ServiceModel)
    (rs : List ResourceInfo) (hc : Bool) :
    s.useRealAI = false →
    (rs ≠ [] →
      analyzeResources s (ResourcesInput.resourceInfos rs) hc
        = Except.ok (performRealAnalysis rs hc)
      ∧ (performRealAnalysis rs hc).HealthScore
          = (rs.filter (fun r => r.Status == "Ready")).length * 100 / rs.length)
    ∧ analyzeResources s (ResourcesInput.resourceInfos []) hc
        = Except.ok emptyResourcesAnalysis
    ∧ (∀ lr : List Resource,
        analyzeResources s (ResourcesInput.crossplaneResources lr) hc
          = analyzeResources s
              (ResourcesInput.resourceInfos (lr.map resourceInfoOfResource)) hc) := by
  intro hAI
  refine ⟨?_, rfl, fun lr => rfl⟩
  intro hne
  constructor
  · cases rs with
    | nil => exact absurd rfl hne
    | cons a l => simp [analyzeResources, analyzeKnownResources, hAI]
  · have hpos : 0 < rs.length := List.length_pos.mpr hne
    simp [performRealAnalysis, hpos]

theorem analyzeResources_healthScore_floor_witness :
    analyzeResources ⟨false, none⟩
        (ResourcesInput.resourceInfos
          [⟨"db1", "dbinstances", "Ready", "aws", "5m0s"⟩]) true
      = Except.ok (performRealAnalysis
          [⟨"db1", "dbinstances", "Ready", "aws", "5m0s"⟩] true)
    ∧ (performRealAnalysis
        [⟨"db1", "dbinstances", "Ready", "aws", "5m0s"⟩] true).HealthScore
      = (([⟨"db1", "dbinstances", "Ready", "aws", "5m0s"⟩] : List ResourceInfo).filter
          (fun r => r.Status == "Ready")).length * 100
        / ([⟨"db1", "dbinstances", "Ready", "aws", "5m0s"⟩] : List ResourceInfo).length :=
  (analyzeResources_healthScore_floor ⟨false, none⟩
    [⟨"db1", "dbinstances", "Ready", "aws", "5m0s"⟩] true rfl).1 (by decide)

/-! ## Claim C1 -/

/-- Claim C1 counterexample: with real AI configured, a completion-call
failure (network error) is returned to the caller by `ProcessQuery`; the
deterministic keyword-template answer for the same query text is not
returned. -/
theorem processQuery_no_fallback_cex :
    processQuery
        ⟨true, some ⟨HTTPOutcome.netError "connection refused", fun _ => none⟩⟩
        "show me aws database issues" (Except.ok "[]")
      = Except.error "failed to send request: connection refused"
    ∧ (Except.error "failed to send request: connection refused"
        : Except String String)
      ≠ Except.ok (simulateAIResponse "show me aws database issues" "[]") :=
  ⟨rfl, by intro h; exact Except.noConfusion h⟩

/-- Claim C1 (amended): when real AI is in use and the completion call
fails for any reason, `ProcessQuery` returns that error to the caller;
the deterministic keyword-template answer is returned exactly when real
AI is not in use (flag off, or no client configured). -/
theorem processQuery_error_propagation :
    (∀ (c : ClientModel) (q rj e : String),
       sendRequest c.transport = Except.error e →
       processQuery ⟨true, some c⟩ q (Except.ok rj) = Except.error e)
    ∧ (∀ (s : ServiceModel) (q rj : String), s.useRealAI = false →
       processQuery s q (Except.ok rj) = Except.ok (simulateAIResponse q rj))
    ∧ (∀ (q rj : String),
       processQuery ⟨true, none⟩ q (Except.ok rj)
         = Except.ok (simulateAIResponse q rj)) := by
  refine ⟨?_, ?_, fun q rj => rfl⟩
  · intro c q rj e h
    simp [processQuery, completeWithContext, clientComplete, h]
  · intro s q rj h
    simp [processQuery, h]

theorem processQuery_error_propagation_witness :
    processQuery
        ⟨true, some ⟨HTTPOutcome.response 500 "Internal Server Error"
           (Except.ok ["unused"]), fun _ => none⟩⟩
        "list my buckets" (Except.ok "[]")
      = Except.error "API request failed with status 500: Internal Server Error"
    ∧ processQuery ⟨false, none⟩ "list my buckets" (Except.ok "[]")
      = Except.ok (simulateAIResponse "list my buckets" "[]") :=
  ⟨processQuery_error_propagation.1
     ⟨HTTPOutcome.response 500 "Internal Server Error" (Except.ok ["unused"]),
      fun _ => none⟩ "list my buckets" "[]"
     "API request failed with status 500: Internal Server Error" rfl,
   processQuery_error_propagation.2.1 ⟨false, none⟩ "list my buckets" "[]" rfl⟩
